import Mathlib

/-!
Verification of the `userasync` character device (`src/userasync/devicefile/chardev.c`)
against its specification.

The development has two layers:

* a functional model of one pass through `chardev_read`'s body (and of
  `chardev_write` / `chardev_ioctl`, whose bodies are single return
  statements), used for the claims about a single call with the device
  state otherwise quiescent;

* an interleaved small-step semantics `Chardev.Step` over the shared
  device state plus the program points of the reader threads, in which
  the individually-atomic operations of `chardev_read` — the
  `atomic_read(&counter)` in the `while` condition, the `copy_to_user`,
  and the `atomic_set(&counter, 0)` — are separate steps, exactly as in
  the C source, so races between concurrent readers are representable.
-/

namespace Chardev

/-- errno magnitude for EAGAIN; `chardev_read` returns `-EAGAIN`. -/
def EAGAIN : Int := 11

/-- errno magnitude for EFAULT; `chardev_read` returns `-EFAULT` when
`copy_to_user` fails. -/
def EFAULT : Int := 14

/-- errno magnitude for EPERM; `chardev_write` returns `-EPERM`. -/
def EPERM : Int := 1

/-- errno magnitude for ENOTTY; `chardev_ioctl` returns `-ENOTTY`. -/
def ENOTTY : Int := 25

/-- The constant payload `"test"` that `chardev_read` copies to user space:
`copy_to_user(buf, "test", 4)` transfers exactly these four characters. -/
def testPayload : List Char := ['t', 'e', 's', 't']

/-- Outcome of one pass through the body of `chardev_read` with the device
state otherwise quiescent: either the call returns `retval` having stored
`written` into the user buffer, or it goes to sleep in
`wait_event_interruptible`. -/
inductive ReadOutcome where
  | ret (retval : Int) (written : List Char)
  | sleeps
  deriving DecidableEq, Repr

/-- `chardev_read`, one traversal of the body with the shared state fixed:
`nonblock` is `filp->f_flags & O_NONBLOCK`, `copySucceeds` tells whether
`copy_to_user` succeeds, `counter` is the current value of the atomic
readiness counter, `count` and `offp` are the caller's byte count and file
offset.  Returns the outcome together with the new counter and offset.
The source checks `counter == 0` first; in non-blocking mode it returns
`-EAGAIN`, otherwise it sleeps.  Past the loop it copies `"test"`,
returning `-EFAULT` without clearing the counter if the copy fails, and
otherwise clears the counter and returns 4.  `count` and `offp` are never
consulted or updated by the source. -/
def chardev_read (nonblock copySucceeds : Bool) (counter : Int)
    (count : Nat) (offp : Int) : ReadOutcome × Int × Int :=
  if counter = 0 then
    if nonblock then (ReadOutcome.ret (-EAGAIN) [], counter, offp)
    else (ReadOutcome.sleeps, counter, offp)
  else
    if copySucceeds then (ReadOutcome.ret 4 testPayload, 0, offp)
    else (ReadOutcome.ret (-EFAULT) [], counter, offp)

/-- `chardev_write`: the body is the single statement `return -EPERM;`.
The counter and offset are passed through to state that nothing changes. -/
def chardev_write (nonblock : Bool) (counter : Int) (count : Nat)
    (offp : Int) : Int × Int × Int :=
  (-EPERM, counter, offp)

/-- Shared device state together with the reader threads, summarised by how
many threads sit at each program point of `chardev_read`, plus cumulative
history counters.  `counter` is the atomic readiness counter, `timerArmed`
and `timerExpires` model `read_timer` being pending and its `expires`
field (in jiffies), `torndown` records that `chardev_exit` has run.
`fires` counts invocations of `timer_func` (the mark-ready events),
`reads` counts `chardev_read` calls that returned 4, `eagains` and
`efaults` count the `-EAGAIN` and `-EFAULT` returns.  `nStartB` and
`nStartN` count threads (on a blocking resp. `O_NONBLOCK` file) about to
execute the `atomic_read` of the `while` condition, `nWaiting` threads
asleep in `wait_event_interruptible`, `nCopying` threads past the loop and
about to run `copy_to_user` / `atomic_set(&counter, 0)`, `nIdle` threads
currently outside `chardev_read`. -/
structure MState where
  counter : Int
  timerArmed : Bool
  timerExpires : Nat
  torndown : Bool
  fires : Nat
  reads : Nat
  eagains : Nat
  efaults : Nat
  nStartB : Nat
  nStartN : Nat
  nWaiting : Nat
  nCopying : Nat
  nIdle : Nat
  deriving DecidableEq, Repr

/-- Number of reader threads in the model, wherever they sit. -/
def totalThreads (s : MState) : Nat :=
  s.nStartB + s.nStartN + s.nWaiting + s.nCopying + s.nIdle

/-- `timer_func`: `atomic_set(&counter, 1)`, then re-arm with
`read_timer.expires = jiffies + (HZ * 5)` and `add_timer`, then
`wake_up_interruptible(&queue)`.  `hz` is `HZ` and `now` the value of
`jiffies` at the fire.  The wake-up moves every thread sleeping in
`wait_event_interruptible` back to the re-check of the `while` condition
(the sleepers are all blocking-mode readers).  `fires` is the history
count of mark-ready events.  Nothing is conditional on readers being
present. -/
def timer_func (hz now : Nat) (s : MState) : MState :=
  { s with counter := 1,
           timerArmed := true,
           timerExpires := now + hz * 5,
           fires := s.fires + 1,
           nStartB := s.nStartB + s.nWaiting,
           nWaiting := 0 }

/-- The device state `chardev_init` leaves behind: the readiness counter is
set to 1 (`atomic_set(&counter, 1)`), the timer armed for
`jiffies + (HZ * 5)`, and `n` reader threads exist, none yet inside
`chardev_read`. -/
def chardev_init_state (hz now n : Nat) : MState :=
  { counter := 1,
    timerArmed := true,
    timerExpires := now + hz * 5,
    torndown := false,
    fires := 0,
    reads := 0,
    eagains := 0,
    efaults := 0,
    nStartB := 0,
    nStartN := 0,
    nWaiting := 0,
    nCopying := 0,
    nIdle := n }

/-- Effect of `chardev_exit` on the model state: `del_timer(&read_timer)`
cancels the pending timer and the device is unregistered.  The function
contains no `wake_up` call, so the wait queue, the readiness counter and
the positions of all reader threads are untouched. -/
def chardev_exit_state (s : MState) : MState :=
  { s with timerArmed := false, torndown := true }

/-- `chardev_ioctl`: the body is the single statement `return -ENOTTY;`,
for every command and argument; the device state is passed through
untouched, as the function has no other statement (in particular no
registration is recorded anywhere). -/
def chardev_ioctl (cmd arg : Nat) (s : MState) : Int × MState :=
  (-ENOTTY, s)

/-- One atomic step of the interleaved execution.  Each reader-side rule is
one of the individually-atomic operations of `chardev_read`; `timerFire`
is one invocation of `timer_func` (the callback body runs with the timer
subsystem's protection); `devExit` is `chardev_exit`.

* `callB` / `callN`: a thread outside the driver enters `chardev_read`
  through a file opened blocking resp. with `O_NONBLOCK`.
* `checkReadyB` / `checkReadyN`: the `atomic_read(&counter)` of the
  `while` condition observes a non-zero counter, so the loop is exited
  and the thread proceeds to the copy.  The counter is NOT modified here.
* `checkEmptyN`: the condition observes 0 on an `O_NONBLOCK` file; the
  call returns `-EAGAIN`.
* `checkEmptyB`: the condition observes 0 on a blocking file; the thread
  sleeps in `wait_event_interruptible`.
* `copyOk`: `copy_to_user` succeeds, `atomic_set(&counter, 0)` runs and
  the call returns 4.  The guard is only that a thread is at this point:
  the source clears the counter unconditionally here.
* `copyFault`: `copy_to_user` fails and the call returns `-EFAULT`
  without touching the counter.
* `timerFire`: the pending timer fires at some jiffies value `now`.
* `devExit`: `chardev_exit` runs (once). -/
inductive Step (hz : Nat) : MState → MState → Prop where
  | callB (s : MState) : 1 ≤ s.nIdle →
      Step hz s { s with nIdle := s.nIdle - 1, nStartB := s.nStartB + 1 }
  | callN (s : MState) : 1 ≤ s.nIdle →
      Step hz s { s with nIdle := s.nIdle - 1, nStartN := s.nStartN + 1 }
  | checkReadyB (s : MState) : s.counter ≠ 0 → 1 ≤ s.nStartB →
      Step hz s { s with nStartB := s.nStartB - 1, nCopying := s.nCopying + 1 }
  | checkReadyN (s : MState) : s.counter ≠ 0 → 1 ≤ s.nStartN →
      Step hz s { s with nStartN := s.nStartN - 1, nCopying := s.nCopying + 1 }
  | checkEmptyN (s : MState) : s.counter = 0 → 1 ≤ s.nStartN →
      Step hz s { s with nStartN := s.nStartN - 1, nIdle := s.nIdle + 1,
                         eagains := s.eagains + 1 }
  | checkEmptyB (s : MState) : s.counter = 0 → 1 ≤ s.nStartB →
      Step hz s { s with nStartB := s.nStartB - 1, nWaiting := s.nWaiting + 1 }
  | copyOk (s : MState) : 1 ≤ s.nCopying →
      Step hz s { s with counter := 0, nCopying := s.nCopying - 1,
                         nIdle := s.nIdle + 1, reads := s.reads + 1 }
  | copyFault (s : MState) : 1 ≤ s.nCopying →
      Step hz s { s with nCopying := s.nCopying - 1, nIdle := s.nIdle + 1,
                         efaults := s.efaults + 1 }
  | timerFire (s : MState) (now : Nat) : s.timerArmed = true →
      Step hz s (timer_func hz now s)
  | devExit (s : MState) : s.torndown = false →
      Step hz s (chardev_exit_state s)

/-- Finitely many interleaved steps. -/
inductive Steps (hz : Nat) : MState → MState → Prop where
  | refl (s : MState) : Steps hz s s
  | tail {s t u : MState} : Steps hz s t → Step hz t u → Steps hz s u

/-- Final state of the two-racing-readers trace used against claim C1:
both readers have returned 4 although the timer never fired. -/
def c1Final : MState :=
  { counter := 0, timerArmed := true, timerExpires := 500, torndown := false,
    fires := 0, reads := 2, eagains := 0, efaults := 0,
    nStartB := 0, nStartN := 0, nWaiting := 0, nCopying := 0, nIdle := 2 }

/-- State reached by tearing the device down while one reader sleeps in
`wait_event_interruptible`: the timer is cancelled, the device gone, and
the reader still parked. -/
def chardevStuck : MState :=
  { counter := 0, timerArmed := false, timerExpires := 500, torndown := true,
    fires := 0, reads := 1, eagains := 0, efaults := 0,
    nStartB := 0, nStartN := 0, nWaiting := 1, nCopying := 0, nIdle := 1 }

/-- Final state of the single-reader trace (one blocking read consuming the
initial grace readiness): one successful read, zero timer fires. -/
def c1TightState : MState :=
  { counter := 0, timerArmed := true, timerExpires := 500, torndown := false,
    fires := 0, reads := 1, eagains := 0, efaults := 0,
    nStartB := 0, nStartN := 0, nWaiting := 0, nCopying := 0, nIdle := 1 }

/-- Invariant of single-reader executions: at most one reader thread
exists, the readiness counter is two-valued, the successful reads are
bounded by the timer fires plus the initial grace readiness, and a thread
past the `while` loop implies the counter is still set (with one reader,
nobody can clear it in between). -/
def Inv1 (s : MState) : Prop :=
  totalThreads s ≤ 1
  ∧ (s.counter = 0 ∨ s.counter = 1)
  ∧ s.reads + s.counter.toNat ≤ s.fires + 1
  ∧ (1 ≤ s.nCopying → s.counter = 1)

theorem step_counter01 {hz : Nat} {s t : MState} (h : Step hz s t)
    (h01 : s.counter = 0 ∨ s.counter = 1) :
    t.counter = 0 ∨ t.counter = 1 := by
  cases h <;> simp_all [timer_func, chardev_exit_state]

theorem steps_counter01 {hz : Nat} {s t : MState} (h : Steps hz s t)
    (h01 : s.counter = 0 ∨ s.counter = 1) :
    t.counter = 0 ∨ t.counter = 1 := by
  induction h with
  | refl => exact h01
  | tail _ hstep ih => exact step_counter01 hstep ih

theorem inv1_step {hz : Nat} {s t : MState} (h : Step hz s t)
    (hi : Inv1 s) : Inv1 t := by
  obtain ⟨htot, h01, hbound, hcopy⟩ := hi
  cases h <;>
    refine ⟨?_, ?_, ?_, ?_⟩ <;>
    simp_all [totalThreads, timer_func, chardev_exit_state] <;>
    omega

theorem inv1_steps {hz : Nat} {s t : MState} (h : Steps hz s t)
    (hi : Inv1 s) : Inv1 t := by
  induction h with
  | refl => exact hi
  | tail _ hstep ih => exact inv1_step hstep ih

theorem parked_persists {hz : Nat} {s t : MState} (h : Steps hz s t)
    (ha : s.timerArmed = false) (hw : 1 ≤ s.nWaiting) :
    1 ≤ t.nWaiting ∧ t.timerArmed = false := by
  induction h with
  | refl => exact ⟨hw, ha⟩
  | tail _ hstep ih =>
      obtain ⟨ihw, iha⟩ := ih
      cases hstep <;> simp_all [timer_func, chardev_exit_state]

/-- C1 counterexample: from device start (initial grace readiness, timer
never yet fired) two blocking readers race on the single readiness event:
both pass the `atomic_read(&counter)` check before either runs
`atomic_set(&counter, 0)`, so both return 4.  The reachable final state
has 2 successful reads and 0 `mark_ready` (timer-fire) calls: the number
of successful reads exceeds the number of `mark_ready` calls, and two
concurrent readers both consumed one readiness event. -/
theorem two_readers_double_consume :
    Steps 100 (chardev_init_state 100 0 2) c1Final
    ∧ c1Final.reads = 2 ∧ c1Final.fires = 0
    ∧ ¬(c1Final.reads ≤ c1Final.fires) := by
  refine ⟨?_, rfl, rfl, by decide⟩
  have h1 : Steps 100 (chardev_init_state 100 0 2)
      (⟨1, true, 500, false, 0, 0, 0, 0, 1, 0, 0, 0, 1⟩ : MState) :=
    Steps.tail (Steps.refl _) (Step.callB _ (by decide))
  have h2 : Steps 100 (chardev_init_state 100 0 2)
      (⟨1, true, 500, false, 0, 0, 0, 0, 2, 0, 0, 0, 0⟩ : MState) :=
    Steps.tail h1 (Step.callB _ (by decide))
  have h3 : Steps 100 (chardev_init_state 100 0 2)
      (⟨1, true, 500, false, 0, 0, 0, 0, 1, 0, 0, 1, 0⟩ : MState) :=
    Steps.tail h2 (Step.checkReadyB _ (by decide) (by decide))
  have h4 : Steps 100 (chardev_init_state 100 0 2)
      (⟨1, true, 500, false, 0, 0, 0, 0, 0, 0, 0, 2, 0⟩ : MState) :=
    Steps.tail h3 (Step.checkReadyB _ (by decide) (by decide))
  have h5 : Steps 100 (chardev_init_state 100 0 2)
      (⟨0, true, 500, false, 0, 1, 0, 0, 0, 0, 0, 1, 1⟩ : MState) :=
    Steps.tail h4 (Step.copyOk _ (by decide))
  exact Steps.tail h5 (Step.copyOk _ (by decide))

/-- C1 (amended): in executions with at most one reader thread — so the
observation of the counter and its clearing cannot interleave with another
read — the number of successful `read()` calls never exceeds the number of
`mark_ready()` (timer-fire) calls plus one, the extra one being the
initial grace readiness set by `chardev_init`. -/
theorem single_reader_consume_bound (hz now n : Nat) (hn : n ≤ 1) (s : MState)
    (h : Steps hz (chardev_init_state hz now n) s) :
    s.reads ≤ s.fires + 1 := by
  have hi : Inv1 (chardev_init_state hz now n) := by
    refine ⟨?_, Or.inr rfl, ?_, ?_⟩ <;>
      simp [totalThreads, chardev_init_state] <;> omega
  obtain ⟨-, h01, hbound, -⟩ := inv1_steps h hi
  omega

/-- Witness for the amended C1: a single blocking reader consumes the
initial grace readiness (enter read, observe counter 1, copy and clear):
the concrete final state has 1 successful read and 0 timer fires, within
the proved bound. -/
theorem single_reader_consume_bound_witness :
    c1TightState.reads ≤ c1TightState.fires + 1 := by
  have h1 : Steps 100 (chardev_init_state 100 0 1)
      (⟨1, true, 500, false, 0, 0, 0, 0, 1, 0, 0, 0, 0⟩ : MState) :=
    Steps.tail (Steps.refl _) (Step.callB _ (by decide))
  have h2 : Steps 100 (chardev_init_state 100 0 1)
      (⟨1, true, 500, false, 0, 0, 0, 0, 0, 0, 0, 1, 0⟩ : MState) :=
    Steps.tail h1 (Step.checkReadyB _ (by decide) (by decide))
  have h3 : Steps 100 (chardev_init_state 100 0 1) c1TightState :=
    Steps.tail h2 (Step.copyOk _ (by decide))
  exact single_reader_consume_bound 100 0 1 (by decide) c1TightState h3

/-- C4: evidence for the teardown bug.  A trace from device start: one
reader consumes the initial readiness, a second blocking reader then finds
the counter 0 and goes to sleep in `wait_event_interruptible`, and
`chardev_exit` runs.  `chardev_exit` contains no `wake_up` call, so in the
reached state the device is torn down with the reader still parked; and
from that state every further interleaving keeps at least one reader
parked forever (the only wake-up is `timer_func`'s, whose timer
`del_timer` cancelled), with no `DeviceGone` outcome anywhere. -/
theorem teardown_leaves_reader_parked :
    Steps 100 (chardev_init_state 100 0 2) chardevStuck
    ∧ chardevStuck.torndown = true
    ∧ chardevStuck.nWaiting = 1
    ∧ ∀ t, Steps 100 chardevStuck t → 1 ≤ t.nWaiting ∧ t.timerArmed = false := by
  refine ⟨?_, rfl, rfl, fun t ht => parked_persists ht rfl (by decide)⟩
  have h1 : Steps 100 (chardev_init_state 100 0 2)
      (⟨1, true, 500, false, 0, 0, 0, 0, 1, 0, 0, 0, 1⟩ : MState) :=
    Steps.tail (Steps.refl _) (Step.callB _ (by decide))
  have h2 : Steps 100 (chardev_init_state 100 0 2)
      (⟨1, true, 500, false, 0, 0, 0, 0, 0, 0, 0, 1, 1⟩ : MState) :=
    Steps.tail h1 (Step.checkReadyB _ (by decide) (by decide))
  have h3 : Steps 100 (chardev_init_state 100 0 2)
      (⟨0, true, 500, false, 0, 1, 0, 0, 0, 0, 0, 0, 2⟩ : MState) :=
    Steps.tail h2 (Step.copyOk _ (by decide))
  have h4 : Steps 100 (chardev_init_state 100 0 2)
      (⟨0, true, 500, false, 0, 1, 0, 0, 1, 0, 0, 0, 1⟩ : MState) :=
    Steps.tail h3 (Step.callB _ (by decide))
  have h5 : Steps 100 (chardev_init_state 100 0 2)
      (⟨0, true, 500, false, 0, 1, 0, 0, 0, 0, 1, 0, 1⟩ : MState) :=
    Steps.tail h4 (Step.checkEmptyB _ (by decide) (by decide))
  exact Steps.tail h5 (Step.devExit _ (by decide))

/-- C2: a `read()` issued while the readiness flag is ready (counter = 1),
in either blocking or non-blocking mode, returns without suspending
(outcome is a return, not a sleep), stores exactly the four constant bytes
`'t','e','s','t'` in the caller's buffer, and returns length 4 (and
consumes the readiness), whenever the user-space copy succeeds. -/
theorem read_ready_returns_payload (nonblock : Bool) (count : Nat) (offp : Int) :
    chardev_read nonblock true 1 count offp
      = (ReadOutcome.ret 4 ['t', 'e', 's', 't'], 0, offp) := by
  cases nonblock <;> rfl

/-- C3: a `read()` in non-blocking mode issued while the readiness flag is
empty (counter = 0) returns `-EAGAIN` immediately (a return, never a
sleep), stores nothing in the caller's buffer, and leaves the readiness
counter and the file offset unchanged, whatever the copy behaviour and
requested count. -/
theorem read_nonblock_empty_eagain (copySucceeds : Bool) (count : Nat) (offp : Int) :
    chardev_read true copySucceeds 0 count offp
      = (ReadOutcome.ret (-EAGAIN) [], 0, offp) := rfl

/-- C5: every invocation of `timer_func`, unconditionally and regardless of
any reader being present, sets the readiness counter to 1, re-arms the
timer to fire at `now + HZ * 5` (one fixed period later), counts one more
mark-ready event, and wakes every reader sleeping on the readiness wait
queue back to the condition re-check. -/
theorem timer_fire_marks_ready_and_rearms (hz now : Nat) (s : MState) :
    (timer_func hz now s).counter = 1
    ∧ (timer_func hz now s).timerArmed = true
    ∧ (timer_func hz now s).timerExpires = now + hz * 5
    ∧ (timer_func hz now s).fires = s.fires + 1
    ∧ (timer_func hz now s).nStartB = s.nStartB + s.nWaiting
    ∧ (timer_func hz now s).nWaiting = 0 :=
  ⟨rfl, rfl, rfl, rfl, rfl, rfl⟩

/-- C6: the readiness counter is 1 (ready) at device start; every state
reachable by interleaved steps from device start has counter 0 or 1; and
along any single step the counter is either unchanged, or becomes 1 in a
step that counts a timer fire (the producer marking ready), or becomes 0
in a step that counts a successful consuming read. -/
theorem counter_two_valued_transitions :
    (∀ hz now n, (chardev_init_state hz now n).counter = 1)
    ∧ (∀ hz now n s, Steps hz (chardev_init_state hz now n) s →
        s.counter = 0 ∨ s.counter = 1)
    ∧ (∀ hz s t, Step hz s t →
        t.counter = s.counter
        ∨ (t.counter = 1 ∧ t.fires = s.fires + 1)
        ∨ (t.counter = 0 ∧ t.reads = s.reads + 1)) := by
  refine ⟨fun _ _ _ => rfl, ?_, ?_⟩
  · intro hz now n s h
    exact steps_counter01 h (Or.inr rfl)
  · intro hz s t h
    cases h <;>
      first
        | exact Or.inl rfl
        | exact Or.inr (Or.inl ⟨rfl, rfl⟩)
        | exact Or.inr (Or.inr ⟨rfl, rfl⟩)

/-- C7: every control-channel (ioctl) command on the device, whatever the
command number and argument — including the `PROCESS_ID` registration the
companion consumer issues — returns `-ENOTTY` and leaves the device state
untouched: no registration ever takes effect. -/
theorem ioctl_enotty (cmd arg : Nat) (s : MState) :
    chardev_ioctl cmd arg s = (-ENOTTY, s) := rfl

/-- C8: every `write()` call returns `-EPERM`, regardless of the session
mode, the readiness counter, the byte count or the offset, and the counter
and offset are passed back unchanged: no bytes are ever accepted. -/
theorem write_eperm (nonblock : Bool) (counter : Int) (count : Nat) (offp : Int) :
    chardev_write nonblock counter count offp = (-EPERM, counter, offp) := rfl

/-- C9: when the copy of the payload to the caller's buffer fails,
`read()` returns `-EFAULT` and the readiness counter is not consumed — it
remains 1 — so a subsequent read (here with a succeeding copy) still
claims the same readiness event and returns the payload. -/
theorem read_copy_fault_keeps_ready (nonblock nb2 : Bool) (count count2 : Nat)
    (offp offp2 : Int) :
    chardev_read nonblock false 1 count offp
      = (ReadOutcome.ret (-EFAULT) [], 1, offp)
    ∧ (chardev_read nb2 true 1 count2 offp2).1 = ReadOutcome.ret 4 testPayload := by
  cases nonblock <;> cases nb2 <;> exact ⟨rfl, rfl⟩

/-- C10: `chardev_read` ignores the caller-requested count and the file
offset: its result is the same for every requested count, the offset is
returned unchanged, and a successful read stores exactly the 4 payload
bytes and returns 4 even when the caller requested fewer (2) or more
(100) than 4 bytes. -/
theorem read_ignores_count_and_offset (nonblock copySucceeds : Bool)
    (counter : Int) (count count2 : Nat) (offp : Int) :
    chardev_read nonblock copySucceeds counter count offp
      = chardev_read nonblock copySucceeds counter count2 offp
    ∧ (chardev_read nonblock copySucceeds counter count offp).2.2 = offp
    ∧ (chardev_read nonblock true 1 2 offp).1 = ReadOutcome.ret 4 testPayload
    ∧ (chardev_read nonblock true 1 100 offp).1 = ReadOutcome.ret 4 testPayload := by
  refine ⟨rfl, ?_, ?_, ?_⟩ <;>
    cases nonblock <;> cases copySucceeds <;>
    by_cases h : counter = 0 <;> simp [chardev_read, h]

end Chardev
